import Mathlib

/-!
Verification of the analysis pipeline of the llm-knowledge-extractor repository
(`backend/analyzer/utils.py`) against its natural-language specification.

The Python source is shallowly embedded: Python strings are Lean `String`s
manipulated through their underlying `List Char` (Python `len`, `strip`,
`lower`, `split`, `title` and slicing are modelled character by character),
Python floats in the confidence scorer are modelled as exact rationals `ℚ`
(every constant in the source is a small decimal), dictionaries returned by
the two analyzers are modelled by the structure `LlmResult` whose `Option`
fields model `dict.get` with a default, and every fallible operation returns
`Except String`.  External collaborators (the OpenAI chat completion, the
NLTK tokenizer/tagger and stopword corpus, `random.choice`) are inputs of the
embedding, collected in the `Env` structure: `reply` is the text content the
service answered (`none` models a transport error / raised exception),
`tagged` is the part-of-speech-tagged token list produced by
`pos_tag(word_tokenize(text.lower()))` (`none` models the NLTK call raising),
`stop_words` is the stopword corpus and `topic_choice` the index drawn by
`random.choice` over the ten sample topic buckets.
-/

/-- Python `str.isspace` test used by `str.strip()`. -/
def isSpaceChar (c : Char) : Bool := c.isWhitespace

/-- Python `text.strip()`: drop leading and trailing whitespace. -/
def pyStrip (s : String) : String :=
  String.mk (((s.data.dropWhile isSpaceChar).reverse.dropWhile isSpaceChar).reverse)

/-- Python `text.lower()` (ASCII-faithful). -/
def pyLower (s : String) : String := String.mk (s.data.map Char.toLower)

/-- Maximal runs of characters satisfying `p`; auxiliary accumulator version. -/
def splitRunsAux (p : Char → Bool) : List Char → List Char → List (List Char)
  | [], acc => if acc = [] then [] else [acc.reverse]
  | c :: cs, acc =>
    if p c then splitRunsAux p cs (c :: acc)
    else if acc = [] then splitRunsAux p cs []
    else acc.reverse :: splitRunsAux p cs []

/-- Maximal runs of characters satisfying `p` inside `l` (empty runs dropped). -/
def splitRuns (p : Char → Bool) (l : List Char) : List (List Char) :=
  splitRunsAux p l []

/-- Python `text.split()` with no separator: whitespace-delimited words,
empty strings discarded. -/
def pySplitWs (s : String) : List String :=
  (splitRuns (fun c => !(isSpaceChar c)) s.data).map String.mk

/-- Python `str.title()` scanner: an alphabetic character is uppercased when
the previous character was not cased, lowercased otherwise. -/
def pyTitleAux : Bool → List Char → List Char
  | _, [] => []
  | prevCased, c :: cs =>
    if c.isAlpha then
      (if prevCased then c.toLower else c.toUpper) :: pyTitleAux true cs
    else c :: pyTitleAux false cs

/-- Python `s.title()`. -/
def pyTitle (s : String) : String := String.mk (pyTitleAux false s.data)

/-- Does `pat` occur at the head of `hay`? -/
def leadEq : List Char → List Char → Bool
  | [], _ => true
  | _ :: _, [] => false
  | a :: as, b :: bs => a == b && leadEq as bs

/-- Python substring test `pat in hay`. -/
def hasSubstr : List Char → List Char → Bool
  | [], pat => leadEq pat []
  | h :: t, pat => leadEq pat (h :: t) || hasSubstr t pat

/-- The dictionary produced by either analyzer (`LLMAnalyzer.analyze_text` or
`MockAnalyzer.analyze_text`).  `none` models a missing key or a JSON `null`
value, so that `Option.getD` models Python `dict.get(key, default)` and
`dict.get(key)`. -/
structure LlmResult where
  summary : Option String
  title : Option String
  topics : Option (List String)
  sentiment : Option String
deriving DecidableEq, Repr

/-- Python `min` on two rationals (kernel-reducible, unlike the lattice
operation). -/
def pymin (a b : ℚ) : ℚ := if a ≤ b then a else b

/-- Python `max` on two rationals. -/
def pymax (a b : ℚ) : ℚ := if a ≤ b then b else a

/-- Python truthiness of `llm_result.get("title")`: the key is present, its
value is not `null` and not the empty string. -/
def title_truthy : Option String → Bool
  | none => false
  | some t => !(t == "")

/-- `calculate_confidence_score` from `backend/analyzer/utils.py` lines
193-238, translated statement by statement.  Floats are exact rationals. -/
def calculate_confidence_score (text : String) (llm_result : LlmResult)
    (keywords : List String) : ℚ :=
  let score : ℚ := 0
  let score := if text ≠ "" ∧ 10 < (pyStrip text).data.length then score + 0.2 else score
  let text_length := (pyStrip text).data.length
  let score := if 100 < text_length then score + 0.1 else score
  let score := if 500 < text_length then score + 0.1 else score
  let summary := llm_result.summary.getD ""
  let score := if summary ≠ "" ∧ 20 < (pyStrip summary).data.length then score + 0.2 else score
  let score := if title_truthy llm_result.title = true then score + 0.1 else score
  let topics := llm_result.topics.getD []
  let score := if 3 ≤ topics.length then score + 0.1
    else if 2 ≤ topics.length then score + 0.05 else score
  let score := if 3 ≤ keywords.length then score + 0.1
    else if 2 ≤ keywords.length then score + 0.05 else score
  let sentiment := llm_result.sentiment.getD "neutral"
  let score := if sentiment ≠ "neutral" then score + 0.1 else score
  pymin (pymax score 0) 1

/-- Does the analyzer output contain a summary whose trimmed length exceeds
20 characters?  (Bool-valued so it can head an `if`.) -/
def summary_ok : Option String → Bool
  | none => false
  | some su => decide (20 < (pyStrip su).data.length)

/-- The confidence scorer exactly as the spec sentence states it, taken
literally: the two larger length thresholds are measured on the *raw* text
length and the title contributes whenever it is non-null (even when empty).
Used to compare the claim's wording with the source. -/
def claimed_confidence_score (text : String) (r : LlmResult)
    (keywords : List String) : ℚ :=
  let s : ℚ :=
    (if 10 < (pyStrip text).data.length then (0.2 : ℚ) else 0)
    + (if 100 < text.data.length then (0.1 : ℚ) else 0)
    + (if 500 < text.data.length then (0.1 : ℚ) else 0)
    + (if summary_ok r.summary = true then (0.2 : ℚ) else 0)
    + (if r.title ≠ none then (0.1 : ℚ) else 0)
    + (if 3 ≤ (r.topics.getD []).length then (0.1 : ℚ)
       else if (r.topics.getD []).length = 2 then (0.05 : ℚ) else 0)
    + (if 3 ≤ keywords.length then (0.1 : ℚ)
       else if keywords.length = 2 then (0.05 : ℚ) else 0)
    + (if r.sentiment.getD "neutral" ≠ "neutral" then (0.1 : ℚ) else 0)
  pymin (pymax s 0) 1

/-- The confidence scorer as the claim reads once amended to match the
source: all three length thresholds are measured on the trimmed text, and
the title contributes only when present *and* non-empty (Python truthiness),
not merely non-null.  Everything else is the claim's independent additive
contribution table with the final clamp to `[0, 1]`. -/
def amended_confidence_score (text : String) (r : LlmResult)
    (keywords : List String) : ℚ :=
  let text_length := (pyStrip text).data.length
  let s : ℚ :=
    (if 10 < text_length then (0.2 : ℚ) else 0)
    + (if 100 < text_length then (0.1 : ℚ) else 0)
    + (if 500 < text_length then (0.1 : ℚ) else 0)
    + (if summary_ok r.summary = true then (0.2 : ℚ) else 0)
    + (if r.title ≠ none ∧ r.title ≠ some "" then (0.1 : ℚ) else 0)
    + (if 3 ≤ (r.topics.getD []).length then (0.1 : ℚ)
       else if (r.topics.getD []).length = 2 then (0.05 : ℚ) else 0)
    + (if 3 ≤ keywords.length then (0.1 : ℚ)
       else if keywords.length = 2 then (0.05 : ℚ) else 0)
    + (if r.sentiment.getD "neutral" ≠ "neutral" then (0.1 : ℚ) else 0)
  pymin (pymax s 0) 1

/-- The ten hard-coded sample topic buckets of `MockAnalyzer.__init__`. -/
def sample_topics : List (List String) :=
  [["technology", "innovation", "digital"],
   ["health", "wellness", "medical"],
   ["business", "economy", "finance"],
   ["education", "learning", "knowledge"],
   ["environment", "sustainability", "climate"],
   ["science", "research", "discovery"],
   ["culture", "society", "community"],
   ["art", "creativity", "design"],
   ["travel", "adventure", "exploration"],
   ["food", "cooking", "nutrition"]]

/-- `MockAnalyzer.sentiment_keywords["positive"]`. -/
def positive_words : List String :=
  ["excellent", "amazing", "great", "wonderful", "fantastic", "outstanding",
   "brilliant", "superb", "incredible", "remarkable"]

/-- `MockAnalyzer.sentiment_keywords["negative"]`. -/
def negative_words : List String :=
  ["terrible", "awful", "horrible", "disappointing", "frustrating",
   "concerning", "problematic", "difficult", "challenging", "negative"]

/-- `MockAnalyzer.sentiment_keywords["neutral"]` (present in the source,
never consulted by the sentiment logic). -/
def neutral_words : List String :=
  ["standard", "typical", "normal", "regular", "common", "usual", "average",
   "moderate", "standard", "conventional"]

/-- The title computed by `MockAnalyzer.analyze_text`: first five
whitespace-separated words, joined, `str.title()`-cased, and cut to
`title[:47] + "..."` when longer than 50 characters. -/
def mock_title (text : String) : String :=
  let words := (pySplitWs text).take 5
  let title := pyTitle (String.intercalate " " words)
  if 50 < title.data.length then String.mk (title.data.take 47 ++ "...".data)
  else title

/-- The summary template chosen by `MockAnalyzer.analyze_text` from the raw
input length bucket. -/
def mock_summary (text : String) : String :=
  let title := mock_title text
  if text.data.length < 50 then
    "This text discusses " ++ pyLower title ++ " and provides brief information on the topic."
  else if text.data.length < 200 then
    "The content covers " ++ pyLower title ++ " and explores key aspects of the subject matter."
  else
    "This comprehensive text about " ++ pyLower title ++ " provides detailed insights and analysis on the topic."

/-- The sentiment vote of `MockAnalyzer.analyze_text`: how many words of each
fixed list occur (case-insensitive substring test) in the text. -/
def mock_sentiment (text : String) : String :=
  let text_lower := pyLower text
  let positive_count := positive_words.countP (fun w => hasSubstr text_lower.data w.data)
  let negative_count := negative_words.countP (fun w => hasSubstr text_lower.data w.data)
  if negative_count < positive_count then "positive"
  else if positive_count < negative_count then "negative"
  else "neutral"

/-- `MockAnalyzer.analyze_text`; `choice` is the index drawn by
`random.choice(self.sample_topics)`. -/
def mock_analyze_text (choice : Nat) (text : String) : LlmResult :=
  { summary := some (mock_summary text)
    title := some (mock_title text)
    topics := some (sample_topics.getD (choice % sample_topics.length) [])
    sentiment := some (mock_sentiment text) }

/-- Python `str.isalpha()` on a token (non-empty, all alphabetic). -/
def isAlphaStr (w : String) : Bool := !(w.data = []) && w.data.all Char.isAlpha

/-- Occurrence count of `w` in `l`, the multiplicity `collections.Counter`
assigns to `w`. -/
def countIn (l : List String) (w : String) : Nat := l.count w

/-- Distinct elements of `l` in order of first occurrence — the iteration
order of a `collections.Counter` built from `l`. -/
def dedupFirst : List String → List String
  | [] => []
  | x :: xs => x :: (dedupFirst xs).filter (fun y => !(y == x))

/-- Stable insertion for a descending sort by `cnt`: `w` is placed before
the first element whose count is not larger, so that elements with equal
counts keep their original relative order (Python's stable `sorted`). -/
def insertByCount (cnt : String → Nat) (w : String) : List String → List String
  | [] => [w]
  | x :: xs => if cnt w < cnt x then x :: insertByCount cnt w xs else w :: x :: xs

/-- Stable sort by non-increasing `cnt`, the order `Counter.most_common`
produces. -/
def sortByCountDesc (cnt : String → Nat) : List String → List String
  | [] => []
  | x :: xs => insertByCount cnt x (sortByCountDesc cnt xs)

/-- `Counter(l).most_common(n)` restricted to the elements (counts
discarded, as the source immediately projects them away). -/
def most_common (l : List String) (n : Nat) : List String :=
  (sortByCountDesc (countIn l) (dedupFirst l)).take n

/-- The noun list built inside the `try` block of
`KeywordExtractor.extract_keywords`: words of the tagged token list whose
tag starts with `NN`, which are alphabetic, longer than 2 characters and
not stopwords. -/
def nounsOfTagged (stop_words : List String)
    (tagged : List (String × String)) : List String :=
  (tagged.filter (fun wp =>
    wp.2.startsWith "NN" && isAlphaStr wp.1 && decide (2 < wp.1.data.length)
      && !(stop_words.contains wp.1))).map Prod.fst

/-- Is `c` a regex word character (`\w`, ASCII)? -/
def isWordChar (c : Char) : Bool := c.isAlpha || c.isDigit || c == '_'

/-- `re.findall(r'\b[a-zA-Z]{3,}\b', text.lower())`: the maximal word-character
runs of the lowered text that consist only of letters and have length at
least 3 (the `\b` boundaries force the runs to be maximal). -/
def regexWords (text : String) : List String :=
  ((splitRuns isWordChar (pyLower text).data).filter
    (fun run => run.all Char.isAlpha && decide (3 ≤ run.length))).map String.mk

/-- The word list of the `except` branch of
`KeywordExtractor.extract_keywords`: regex words with stopwords removed. -/
def fallbackWords (stop_words : List String) (text : String) : List String :=
  (regexWords text).filter (fun w => !(stop_words.contains w))

/-- The token list whose frequencies rank the keywords: the filtered nouns on
the part-of-speech path, the filtered regex words on the fallback path. -/
def keywordSource (stop_words : List String)
    (tagged : Option (List (String × String))) (text : String) : List String :=
  match tagged with
  | some tagged_tokens => nounsOfTagged stop_words tagged_tokens
  | none => fallbackWords stop_words text

/-- `KeywordExtractor.extract_keywords`.  `tagged` is the result of
`pos_tag(word_tokenize(text.lower()))`; `none` models that call raising, which
the source catches and answers with the regex fallback. -/
def extract_keywords (stop_words : List String)
    (tagged : Option (List (String × String))) (text : String)
    (num_keywords : Nat) : List String :=
  most_common (keywordSource stop_words tagged text) num_keywords

/-- JSON values, as produced by `json.loads`. -/
inductive Json where
  | null
  | bool (b : Bool)
  | num (neg : Bool) (digits : String)
  | str (s : String)
  | arr (elems : List Json)
  | obj (fields : List (String × Json))

/-- JSON whitespace. -/
def jsonWs (c : Char) : Bool := c == ' ' || c == '\t' || c == '\n' || c == '\r'

/-- Skip JSON whitespace. -/
def skipWs (l : List Char) : List Char := l.dropWhile jsonWs

/-- Value of a hexadecimal digit. -/
def hexVal (c : Char) : Option Nat :=
  if c.isDigit then some (c.toNat - 48)
  else if 'a' ≤ c ∧ c ≤ 'f' then some (c.toNat - 87)
  else if 'A' ≤ c ∧ c ≤ 'F' then some (c.toNat - 55)
  else none

/-- Parse exactly four hexadecimal digits. -/
def parseHex4 : List Char → Option (Nat × List Char)
  | a :: b :: c :: d :: rest =>
    match hexVal a, hexVal b, hexVal c, hexVal d with
    | some va, some vb, some vc, some vd =>
      some (((va * 16 + vb) * 16 + vc) * 16 + vd, rest)
    | _, _, _, _ => none
  | _ => none

/-- Single-character JSON string escapes. -/
def escMap (c : Char) : Option Char :=
  if c = '"' ∨ c = '\\' ∨ c = '/' then some c
  else if c = 'b' then some (Char.ofNat 8)
  else if c = 'f' then some (Char.ofNat 12)
  else if c = 'n' then some '\n'
  else if c = 'r' then some '\r'
  else if c = 't' then some '\t'
  else none

/-- Parse the body of a JSON string (the opening quote already consumed),
returning the decoded characters and the input after the closing quote. -/
def parseStrBody : Nat → List Char → Option (List Char × List Char)
  | 0, _ => none
  | _ + 1, [] => none
  | fuel + 1, c :: rest =>
    if c = '"' then some ([], rest)
    else if c = '\\' then
      match rest with
      | [] => none
      | e :: rest2 =>
        if e = 'u' then
          match parseHex4 rest2 with
          | some (n, rest3) =>
            (parseStrBody fuel rest3).map (fun sr => (Char.ofNat n :: sr.1, sr.2))
          | none => none
        else
          match escMap e with
          | some d => (parseStrBody fuel rest2).map (fun sr => (d :: sr.1, sr.2))
          | none => none
    else (parseStrBody fuel rest).map (fun sr => (c :: sr.1, sr.2))

/-- Characters a JSON number may continue with. -/
def numChar (c : Char) : Bool :=
  c.isDigit || c == '.' || c == 'e' || c == 'E' || c == '+' || c == '-'

/-- Parse a JSON number (lenient on the exact digit grammar; the repository
never inspects numeric values). -/
def parseNum (l : List Char) : Option (Json × List Char) :=
  let neg := match l with | '-' :: _ => true | _ => false
  let body := match l with | '-' :: r => r | _ => l
  let ds := body.takeWhile numChar
  match ds with
  | [] => none
  | d :: _ => if d.isDigit then some (.num neg (String.mk ds), body.drop ds.length) else none

mutual

/-- Parse one JSON value, fuel-bounded. -/
def parseVal : Nat → List Char → Option (Json × List Char)
  | 0, _ => none
  | fuel + 1, l =>
    match skipWs l with
    | [] => none
    | c :: rest =>
      if c = '{' then
        match skipWs rest with
        | '}' :: r2 => some (.obj [], r2)
        | r1 => match parseMembers fuel r1 with
          | some (ms, r) => some (.obj ms, r)
          | none => none
      else if c = '[' then
        match skipWs rest with
        | ']' :: r2 => some (.arr [], r2)
        | r1 => match parseElems fuel r1 with
          | some (es, r) => some (.arr es, r)
          | none => none
      else if c = '"' then
        match parseStrBody (rest.length + 1) rest with
        | some (s, r) => some (.str (String.mk s), r)
        | none => none
      else if c = 't' then
        match rest with
        | 'r' :: 'u' :: 'e' :: r => some (.bool true, r)
        | _ => none
      else if c = 'f' then
        match rest with
        | 'a' :: 'l' :: 's' :: 'e' :: r => some (.bool false, r)
        | _ => none
      else if c = 'n' then
        match rest with
        | 'u' :: 'l' :: 'l' :: r => some (.null, r)
        | _ => none
      else parseNum (c :: rest)

/-- Parse the members of a JSON object, positioned at the first key. -/
def parseMembers : Nat → List Char → Option (List (String × Json) × List Char)
  | 0, _ => none
  | fuel + 1, l =>
    match l with
    | '"' :: rest =>
      match parseStrBody (rest.length + 1) rest with
      | some (k, r1) =>
        match skipWs r1 with
        | ':' :: r2 =>
          match parseVal fuel r2 with
          | some (v, r3) =>
            match skipWs r3 with
            | ',' :: r4 =>
              match parseMembers fuel (skipWs r4) with
              | some (ms, r5) => some ((String.mk k, v) :: ms, r5)
              | none => none
            | '}' :: r4 => some ([(String.mk k, v)], r4)
            | _ => none
          | none => none
        | _ => none
      | none => none
    | _ => none

/-- Parse the elements of a JSON array, positioned at the first element. -/
def parseElems : Nat → List Char → Option (List Json × List Char)
  | 0, _ => none
  | fuel + 1, l =>
    match parseVal fuel l with
    | some (v, r1) =>
      match skipWs r1 with
      | ',' :: r2 =>
        match parseElems fuel r2 with
        | some (es, r3) => some (v :: es, r3)
        | none => none
      | ']' :: r2 => some ([v], r2)
      | _ => none
    | none => none

end

/-- `json.loads`: the whole string must be one JSON document (possibly with
surrounding whitespace). -/
def json_loads (s : String) : Option Json :=
  match parseVal (2 * s.data.length + 2) s.data with
  | some (v, rest) => if skipWs rest = [] then some v else none
  | none => none

/-- `re.search(r'\{.*\}', content, re.DOTALL)`: with a greedy `.*` over every
character, the match (when it exists) runs from the first brace that opens to
the last brace that closes after it, and it exists exactly when an opening
brace precedes some closing brace. -/
def json_match (s : String) : Option String :=
  match s.data.findIdx? (fun c => c = '{'), s.data.reverse.findIdx? (fun c => c = '}') with
  | some i, some jr =>
    let j := s.data.length - 1 - jr
    if i < j then some (String.mk ((s.data.drop i).take (j - i + 1))) else none
  | _, _ => none

/-- Last binding of key `k` in a parsed JSON object (later duplicate keys win
in `json.loads`). -/
def lookupLast (fields : List (String × Json)) (k : String) : Option Json :=
  (fields.reverse.find? (fun kv => kv.1 == k)).map Prod.snd

/-- Read a string-valued field; `null` and a missing key both become `none`,
matching Python `dict.get`.  (Per the spec the service reply is trusted
structurally, so non-string values are not distinguished from missing ones.) -/
def getStrField (fields : List (String × Json)) (k : String) : Option String :=
  match lookupLast fields k with
  | some (.str s) => some s
  | _ => none

/-- Display form of a JSON array element used for the topics list. -/
def jsonToStr : Json → String
  | .str s => s
  | _ => ""

/-- Shape the dictionary returned by `json.loads` into the keys the rest of
the pipeline reads with `dict.get`. -/
def decodeLlm : Json → LlmResult
  | .obj fields =>
    { summary := getStrField fields "summary"
      title := getStrField fields "title"
      topics := match lookupLast fields "topics" with
        | some (.arr es) => some (es.map jsonToStr)
        | _ => none
      sentiment := getStrField fields "sentiment" }
  | _ => { summary := none, title := none, topics := none, sentiment := none }

/-- The degraded result `LLMAnalyzer.analyze_text` builds when the brace
regex finds no match in the reply. -/
def degraded_result (content : String) : LlmResult :=
  { summary := some content
    title := none
    topics := some ["general"]
    sentiment := some "neutral" }

/-- Response handling of `LLMAnalyzer.analyze_text` (lines 136-154): strip
the reply, search for a brace-delimited region, `json.loads` it; a reply with
no such region becomes the degraded result; a transport error (`reply =
none`) or a `json.loads` failure is re-raised as one wrapped analyzer
error. -/
def llm_analyze_text (reply : Option String) : Except String LlmResult :=
  match reply with
  | none => .error "OpenAI API error: request failed"
  | some raw =>
    let content := pyStrip raw
    match json_match content with
    | some sub =>
      match json_loads sub with
      | some v => .ok (decodeLlm v)
      | none => .error "OpenAI API error: invalid JSON"
    | none => .ok (degraded_result content)

/-- `LLMAnalyzer.__init__` (lines 96-99): fails before any network call when
the credential is absent (Python falsy: unset or empty) or equals the
placeholder written into the sample configuration. -/
def llm_analyzer_init (api_key : Option String) : Except String Unit :=
  if api_key = none ∨ api_key = some "" ∨ api_key = some "your_openai_api_key_here"
  then .error "OpenAI API key not configured. Please set OPENAI_API_KEY in your environment."
  else .ok ()

/-- The configuration condition under which `LLMAnalyzer.__init__` raises. -/
def unconfigured (api_key : Option String) : Prop :=
  api_key = none ∨ api_key = some "" ∨ api_key = some "your_openai_api_key_here"

instance (k : Option String) : Decidable (unconfigured k) := by
  unfold unconfigured; infer_instance

/-- Everything the pipeline reads from the outside world in one orchestration
call. -/
structure Env where
  api_key : Option String
  reply : Option String
  tagged : Option (List (String × String))
  stop_words : List String
  topic_choice : Nat

/-- The `try` block of `analyze_text_complete`: construct the primary
analyzer, then call it. -/
def primary_result (env : Env) : Except String LlmResult :=
  match llm_analyzer_init env.api_key with
  | .error e => .error e
  | .ok _ => llm_analyze_text env.reply

/-- The analyzer output `analyze_text_complete` continues with: the primary
result, or on any failure the mock analyzer's output. -/
def chosen_llm (env : Env) (text : String) : LlmResult :=
  match primary_result env with
  | .ok r => r
  | .error _ => mock_analyze_text env.topic_choice text

/-- The `analysis_method` tag recorded next to the chosen output (`"openai"`
encodes the spec's primary path, `"mock"` its fallback path). -/
def chosen_method (env : Env) : String :=
  match primary_result env with
  | .ok _ => "openai"
  | .error _ => "mock"

/-- The completed result dictionary of `analyze_text_complete`. -/
structure AnalysisResult where
  summary : String
  title : Option String
  topics : List String
  sentiment : String
  keywords : List String
  confidence_score : ℚ
  analysis_method : String
deriving DecidableEq, Repr

/-- Result assembly of `analyze_text_complete` (lines 249-285) for a
non-empty input: choose the analyzer output, extract keywords, score, apply
the mock discount `min(score * 0.7, 0.8)`, and build the final dictionary
through `dict.get` defaults. -/
def assemble (env : Env) (text : String) : AnalysisResult :=
  let llm_result := chosen_llm env text
  let analysis_method := chosen_method env
  let keywords := extract_keywords env.stop_words env.tagged text 3
  let base := calculate_confidence_score text llm_result keywords
  let confidence_score :=
    if analysis_method = "mock" then pymin (base * 0.7) 0.8 else base
  { summary := llm_result.summary.getD ""
    title := llm_result.title
    topics := llm_result.topics.getD []
    sentiment := llm_result.sentiment.getD "neutral"
    keywords := keywords
    confidence_score := confidence_score
    analysis_method := analysis_method }

/-- `analyze_text_complete` (lines 241-285): raise on an input that is empty
or whitespace-only, otherwise assemble the full result. -/
def analyze_text_complete (env : Env) (text : String) :
    Except String AnalysisResult :=
  if text = "" ∨ pyStrip text = "" then .error "Empty input text"
  else .ok (assemble env text)

/-- All contiguous substrings of `s`. -/
def substrings (s : String) : List String :=
  (s.data.tails.map
    (fun t => (List.range (t.length + 1)).map (fun n => String.mk (t.take n)))).flatten

/-- Does some contiguous substring of `s` parse as a well-formed JSON
object? -/
def has_parseable_obj (s : String) : Bool :=
  (substrings s).any (fun t =>
    match json_loads t with
    | some (Json.obj _) => true
    | _ => false)

/-- The fallback sentiment rule in the words of the spec: how many words of
the fixed positive list and of the fixed negative list occur in the text
under a case-insensitive substring match, compared. -/
def claimed_sentiment (text : String) : String :=
  let lowered := pyLower text
  let pos := (positive_words.filter (fun w => hasSubstr lowered.data w.data)).length
  let neg := (negative_words.filter (fun w => hasSubstr lowered.data w.data)).length
  if neg < pos then "positive"
  else if pos < neg then "negative"
  else "neutral"

/-- The fallback title rule in the words of the spec: first five
whitespace-separated words joined and title-cased, truncated to 50 characters
total including the trailing ellipsis marker when longer than 50. -/
def claimed_title (text : String) : String :=
  let joined := pyTitle (String.intercalate " " ((pySplitWs text).take 5))
  if 50 < joined.data.length then String.mk (joined.data.take 47 ++ "...".data)
  else joined

/-- The 600-character input of the worked scenario. -/
def text600 : String := String.mk (List.replicate 600 'a')

/-- The full analyzer output of the worked scenario (a summary longer than
20 characters once trimmed, a title, three topics, non-neutral sentiment). -/
def scenario_output : LlmResult :=
  { summary := some "This is a sufficiently long summary."
    title := some "T"
    topics := some ["a", "b", "c"]
    sentiment := some "positive" }

/-- A whitespace-padded input: 103 raw characters but only 3 once trimmed. -/
def padded_text : String := "hi!" ++ String.mk (List.replicate 100 ' ')

/-- An analyzer output with an empty (non-null, falsy) title. -/
def padded_output : LlmResult :=
  { summary := none, title := some "", topics := none, sentiment := none }

/-- A concrete environment with no credential configured. -/
def env_no_key : Env :=
  { api_key := none, reply := none, tagged := none, stop_words := [],
    topic_choice := 0 }

/-- A concrete environment holding the placeholder credential and a healthy
network reply, to exhibit that the reply is never consulted. -/
def env_placeholder : Env :=
  { api_key := some "your_openai_api_key_here", reply := some "a fine reply",
    tagged := none, stop_words := [], topic_choice := 3 }

/-- A configured environment whose service reply contains no brace-delimited
region. -/
def env_braceless_reply : Env :=
  { api_key := some "sk-test", reply := some "no json here",
    tagged := none, stop_words := [], topic_choice := 0 }

/-- Decidable equality for `Except`, used to evaluate the embedding on
concrete replies. -/
instance {e a : Type} [DecidableEq e] [DecidableEq a] :
    DecidableEq (Except e a) := fun x y =>
  match x, y with
  | .error u, .error v =>
    if h : u = v then isTrue (by rw [h])
    else isFalse (fun hc => h (Except.error.inj hc))
  | .ok u, .ok v =>
    if h : u = v then isTrue (by rw [h])
    else isFalse (fun hc => h (Except.ok.inj hc))
  | .error _, .ok _ => isFalse (fun hc => Except.noConfusion hc)
  | .ok _, .error _ => isFalse (fun hc => Except.noConfusion hc)

theorem ite_add_shift (c : Prop) [Decidable c] (s x : ℚ) :
    (if c then s + x else s) = s + (if c then x else 0) := by
  split <;> simp

theorem ite_add_shift2 (c : Prop) [Decidable c] (s x y : ℚ) :
    (if c then s + x else s + y) = s + (if c then x else y) := by
  split <;> rfl

theorem cond_text_iff (t : String) :
    (t ≠ "" ∧ 10 < (pyStrip t).data.length) ↔ 10 < (pyStrip t).data.length := by
  constructor
  · exact And.right
  · intro h
    refine ⟨?_, h⟩
    rintro rfl
    revert h
    decide

theorem cond_summary_iff (o : Option String) :
    (o.getD "" ≠ "" ∧ 20 < (pyStrip (o.getD "")).data.length) ↔
      summary_ok o = true := by
  cases o with
  | none => simp [summary_ok]
  | some su =>
    simp only [Option.getD_some, summary_ok, decide_eq_true_eq]
    constructor
    · exact And.right
    · intro h
      refine ⟨?_, h⟩
      rintro rfl
      revert h
      decide

theorem cond_title_iff (o : Option String) :
    (o ≠ none ∧ o ≠ some "") ↔ title_truthy o = true := by
  cases o with
  | none => simp [title_truthy]
  | some t => simp [title_truthy]

theorem topics_ite_eq (L : Nat) (x y : ℚ) :
    (if 3 ≤ L then x else if 2 ≤ L then y else 0) =
      (if 3 ≤ L then x else if L = 2 then y else 0) := by
  split_ifs <;> first | rfl | (exfalso; omega)

set_option maxRecDepth 100000 in
/-- **C1, counterexample.**  The claim read literally — raw text length for
the 100- and 500-character thresholds, `+0.10` for any non-null title —
disagrees with `calculate_confidence_score`: on a whitespace-padded
103-character input with an empty-string title the claimed sum is 0.2 while
the source computes 0. -/
theorem confidence_score_claim_counterexample :
    claimed_confidence_score padded_text padded_output [] = 0.2
    ∧ calculate_confidence_score padded_text padded_output [] = 0
    ∧ calculate_confidence_score padded_text padded_output [] ≠
        claimed_confidence_score padded_text padded_output [] := by
  refine ⟨by with_unfolding_all rfl, by with_unfolding_all rfl, by with_unfolding_all decide⟩

set_option maxRecDepth 100000 in
/-- **C1, amended.**  `calculate_confidence_score` is exactly the claimed
independent additive sum clamped to `[0, 1]`, once all three length
thresholds are measured on the trimmed text and the title contribution
requires a present *and* non-empty title; the 600-character worked scenario
with a full analyzer output and three keywords scores exactly 1. -/
theorem confidence_score_amended :
    (∀ (text : String) (r : LlmResult) (keywords : List String),
      calculate_confidence_score text r keywords =
        amended_confidence_score text r keywords)
    ∧ calculate_confidence_score text600 scenario_output ["k1", "k2", "k3"] = 1 := by
  constructor
  · intro t r k
    unfold calculate_confidence_score amended_confidence_score
    simp only [ite_add_shift, ite_add_shift2, zero_add, cond_text_iff,
      cond_summary_iff, cond_title_iff, topics_ite_eq]
  · with_unfolding_all rfl

theorem pymin_eq_min (a b : ℚ) : pymin a b = min a b := by
  rw [pymin, min_def]

theorem pymax_eq_max (a b : ℚ) : pymax a b = max a b := by
  rw [pymax, max_def]

theorem calc_score_nonneg (t : String) (r : LlmResult) (k : List String) :
    0 ≤ calculate_confidence_score t r k := by
  unfold calculate_confidence_score
  simp only [pymin_eq_min, pymax_eq_max]
  exact le_min (le_max_right _ _) zero_le_one

theorem calc_score_le_one (t : String) (r : LlmResult) (k : List String) :
    calculate_confidence_score t r k ≤ 1 := by
  unfold calculate_confidence_score
  simp only [pymin_eq_min, pymax_eq_max]
  exact min_le_right _ _

theorem assemble_confidence (env : Env) (text : String) :
    (assemble env text).confidence_score =
      (if chosen_method env = "mock"
       then pymin (calculate_confidence_score text (chosen_llm env text)
          (extract_keywords env.stop_words env.tagged text 3) * 0.7) 0.8
       else calculate_confidence_score text (chosen_llm env text)
          (extract_keywords env.stop_words env.tagged text 3)) := rfl

theorem assemble_method (env : Env) (text : String) :
    (assemble env text).analysis_method = chosen_method env := rfl

theorem analyze_ok_of_nonempty (env : Env) (text : String)
    (h : pyStrip text ≠ "") :
    analyze_text_complete env text = .ok (assemble env text) := by
  unfold analyze_text_complete
  rw [if_neg]
  rintro (rfl | hs)
  · exact h rfl
  · exact h hs

/-- **C2.**  For every environment and every input that is non-empty after
trimming, the orchestration succeeds and its `confidence_score` lies in
`[0, 1]`, on the primary (`"openai"`) path and the fallback (`"mock"`) path
alike. -/
theorem analyze_confidence_in_unit_interval (env : Env) (text : String)
    (h : pyStrip text ≠ "") :
    ∃ r, analyze_text_complete env text = .ok r
      ∧ 0 ≤ r.confidence_score ∧ r.confidence_score ≤ 1 := by
  refine ⟨assemble env text, analyze_ok_of_nonempty env text h, ?_, ?_⟩
  · rw [assemble_confidence]
    split
    · rw [pymin_eq_min]
      refine le_min (mul_nonneg (calc_score_nonneg _ _ _) (by norm_num)) (by norm_num)
    · exact calc_score_nonneg _ _ _
  · rw [assemble_confidence]
    split
    · rw [pymin_eq_min]
      exact (min_le_right _ _).trans (by norm_num)
    · exact calc_score_le_one _ _ _

/-- **C2, witness.**  The bound instantiated at a concrete unconfigured
environment and the input `"hello"`. -/
theorem analyze_confidence_in_unit_interval_witness :
    ∃ r, analyze_text_complete env_no_key "hello" = .ok r
      ∧ 0 ≤ r.confidence_score ∧ r.confidence_score ≤ 1 :=
  analyze_confidence_in_unit_interval env_no_key "hello" (by decide)

theorem result_of_analyze_ok (env : Env) (text : String) (r : AnalysisResult)
    (h : analyze_text_complete env text = .ok r) : r = assemble env text := by
  unfold analyze_text_complete at h
  split at h
  · exact absurd h (by simp)
  · exact (Except.ok.inj h).symm

theorem primary_error_of_mock (env : Env)
    (hm : chosen_method env = "mock") :
    ∃ e, primary_result env = .error e := by
  unfold chosen_method at hm
  cases hp : primary_result env with
  | ok v => rw [hp] at hm; simp at hm
  | error e => exact ⟨e, rfl⟩

theorem chosen_llm_of_mock (env : Env) (text : String)
    (hm : chosen_method env = "mock") :
    chosen_llm env text = mock_analyze_text env.topic_choice text := by
  obtain ⟨e, he⟩ := primary_error_of_mock env hm
  unfold chosen_llm
  rw [he]

/-- **C3.**  Whenever the orchestration records the fallback path
(`analysis_method = "mock"`), the final confidence score is at most 0.8 and
equals the §4.4 base score — computed on the mock analyzer output and the
extracted keywords — multiplied by 0.7 and clamped to a maximum of 0.8. -/
theorem fallback_confidence_formula (env : Env) (text : String)
    (r : AnalysisResult) (h : analyze_text_complete env text = .ok r)
    (hm : r.analysis_method = "mock") :
    r.confidence_score ≤ 0.8
    ∧ r.confidence_score =
        pymin (calculate_confidence_score text
          (mock_analyze_text env.topic_choice text)
          (extract_keywords env.stop_words env.tagged text 3) * 0.7) 0.8 := by
  have hr := result_of_analyze_ok env text r h
  subst hr
  have hm' : chosen_method env = "mock" := hm
  constructor
  · rw [assemble_confidence, if_pos hm', pymin_eq_min]
    exact min_le_right _ _
  · rw [assemble_confidence, if_pos hm', chosen_llm_of_mock env text hm']

/-- **C3, witness.**  The formula instantiated at a concrete unconfigured
environment and the input `"hello"`. -/
theorem fallback_confidence_formula_witness :
    (assemble env_no_key "hello").confidence_score ≤ 0.8
    ∧ (assemble env_no_key "hello").confidence_score =
        pymin (calculate_confidence_score "hello"
          (mock_analyze_text env_no_key.topic_choice "hello")
          (extract_keywords env_no_key.stop_words env_no_key.tagged "hello" 3)
          * 0.7) 0.8 :=
  fallback_confidence_formula env_no_key "hello" (assemble env_no_key "hello")
    (analyze_ok_of_nonempty env_no_key "hello" (by decide)) rfl

/-- **C10.**  On the fallback path the final confidence score is in fact at
most 0.7, strictly below the 0.8 cap the spec states: the base score is
already clamped to at most 1 before the 0.7 discount is applied. -/
theorem fallback_confidence_le_07 (env : Env) (text : String)
    (r : AnalysisResult) (h : analyze_text_complete env text = .ok r)
    (hm : r.analysis_method = "mock") :
    r.confidence_score ≤ 0.7 := by
  have hr := result_of_analyze_ok env text r h
  subst hr
  have hm' : chosen_method env = "mock" := hm
  rw [assemble_confidence, if_pos hm', pymin_eq_min]
  have hb := calc_score_le_one text (chosen_llm env text)
    (extract_keywords env.stop_words env.tagged text 3)
  calc min (calculate_confidence_score text (chosen_llm env text)
        (extract_keywords env.stop_words env.tagged text 3) * 0.7) 0.8
      ≤ calculate_confidence_score text (chosen_llm env text)
          (extract_keywords env.stop_words env.tagged text 3) * 0.7 :=
        min_le_left _ _
    _ ≤ 1 * 0.7 := by
        exact mul_le_mul_of_nonneg_right hb (by norm_num)
    _ = 0.7 := by norm_num

/-- **C10, witness.**  The 0.7 bound instantiated at a concrete unconfigured
environment and the input `"good news"`. -/
theorem fallback_confidence_le_07_witness :
    (assemble env_no_key "good news").confidence_score ≤ 0.7 :=
  fallback_confidence_le_07 env_no_key "good news"
    (assemble env_no_key "good news")
    (analyze_ok_of_nonempty env_no_key "good news" (by decide)) rfl

/-- **C4.**  The orchestration raises the empty-input error exactly on
inputs that trim to the empty string; every other input yields the fully
assembled result (all seven fields populated by `assemble`), whose method
tag is one of the two paths — no other failure escapes. -/
theorem analyze_total_or_empty_error (env : Env) (text : String) :
    (analyze_text_complete env text = .error "Empty input text" ↔ pyStrip text = "")
    ∧ (pyStrip text ≠ "" → analyze_text_complete env text = .ok (assemble env text))
    ∧ ((assemble env text).analysis_method = "openai"
       ∨ (assemble env text).analysis_method = "mock") := by
  refine ⟨⟨?_, ?_⟩, analyze_ok_of_nonempty env text, ?_⟩
  · intro h
    unfold analyze_text_complete at h
    split at h
    · rename_i hc
      rcases hc with rfl | hs
      · rfl
      · exact hs
    · exact absurd h (by simp)
  · intro hs
    unfold analyze_text_complete
    rw [if_pos (Or.inr hs)]
  · rw [assemble_method]
    unfold chosen_method
    cases primary_result env with
    | ok v => exact Or.inl rfl
    | error e => exact Or.inr rfl

/-- **C4, witness.**  The dichotomy instantiated concretely: whitespace-only
input fails with the empty-input error, `"hello"` succeeds completely. -/
theorem analyze_total_or_empty_error_witness :
    analyze_text_complete env_no_key "   " = .error "Empty input text"
    ∧ analyze_text_complete env_no_key "hello" = .ok (assemble env_no_key "hello") :=
  ⟨(analyze_total_or_empty_error env_no_key "   ").1.mpr (by decide),
   (analyze_total_or_empty_error env_no_key "hello").2.1 (by decide)⟩

/-- **C5.**  With an absent, empty or placeholder credential, the primary
analyzer's constructor fails; the failure is independent of the network
reply (no call is made), and for every non-empty input the orchestration
still succeeds, recording the fallback path and raising nothing. -/
theorem unconfigured_always_fallback (env : Env) (text : String)
    (hk : unconfigured env.api_key) (ht : pyStrip text ≠ "") :
    (∃ e, llm_analyzer_init env.api_key = .error e)
    ∧ (∀ reply, primary_result { env with reply := reply } = primary_result env)
    ∧ ∃ r, analyze_text_complete env text = .ok r ∧ r.analysis_method = "mock" := by
  have hinit : llm_analyzer_init env.api_key =
      .error "OpenAI API key not configured. Please set OPENAI_API_KEY in your environment." := by
    unfold llm_analyzer_init
    unfold unconfigured at hk
    rw [if_pos hk]
  refine ⟨⟨_, hinit⟩, ?_, assemble env text, analyze_ok_of_nonempty env text ht, ?_⟩
  · intro reply
    unfold primary_result
    rw [show ({ env with reply := reply } : Env).api_key = env.api_key from rfl, hinit]
  · rw [assemble_method]
    unfold chosen_method primary_result
    rw [hinit]

/-- **C5, witness.**  Instantiated at the placeholder credential together
with a healthy network reply and the scenario input, exhibiting the
fallback tag. -/
theorem unconfigured_always_fallback_witness :
    (∃ e, llm_analyzer_init env_placeholder.api_key = .error e)
    ∧ ∃ r, analyze_text_complete env_placeholder "excellent breakthrough in medicine" = .ok r
        ∧ r.analysis_method = "mock" := by
  have h := unconfigured_always_fallback env_placeholder
    "excellent breakthrough in medicine" (by decide) (by decide)
  exact ⟨h.1, h.2.2⟩

theorem mem_insertByCount (cnt : String → Nat) (w y : String)
    (l : List String) : y ∈ insertByCount cnt w l ↔ y = w ∨ y ∈ l := by
  induction l with
  | nil => simp [insertByCount]
  | cons x xs ih =>
    unfold insertByCount
    split
    · simp only [List.mem_cons, ih]
      tauto
    · simp only [List.mem_cons]

theorem mem_sortByCountDesc (cnt : String → Nat) (y : String)
    (l : List String) : y ∈ sortByCountDesc cnt l ↔ y ∈ l := by
  induction l with
  | nil => simp [sortByCountDesc]
  | cons x xs ih =>
    unfold sortByCountDesc
    rw [mem_insertByCount, ih, List.mem_cons]

theorem mem_dedupFirst (y : String) (l : List String) :
    y ∈ dedupFirst l ↔ y ∈ l := by
  induction l with
  | nil => simp [dedupFirst]
  | cons x xs ih =>
    simp only [dedupFirst, List.mem_cons, List.mem_filter, ih,
      Bool.not_eq_true', beq_eq_false_iff_ne, ne_eq]
    constructor
    · rintro (rfl | ⟨hy, _⟩)
      · exact Or.inl rfl
      · exact Or.inr hy
    · rintro (rfl | hy)
      · exact Or.inl rfl
      · by_cases hyx : y = x
        · exact Or.inl hyx
        · exact Or.inr ⟨hy, hyx⟩

theorem pairwise_insertByCount (cnt : String → Nat) (w : String)
    (l : List String) (hl : l.Pairwise (fun a b => cnt b ≤ cnt a)) :
    (insertByCount cnt w l).Pairwise (fun a b => cnt b ≤ cnt a) := by
  induction l with
  | nil => simp [insertByCount]
  | cons x xs ih =>
    rw [List.pairwise_cons] at hl
    obtain ⟨hx, hxs⟩ := hl
    unfold insertByCount
    split
    · rename_i hlt
      refine List.Pairwise.cons ?_ (ih hxs)
      intro y hy
      rcases (mem_insertByCount cnt w y xs).mp hy with rfl | hyx
      · exact Nat.le_of_lt hlt
      · exact hx y hyx
    · rename_i hge
      refine List.Pairwise.cons ?_ (List.Pairwise.cons hx hxs)
      intro y hy
      rcases List.mem_cons.mp hy with rfl | hyxs
      · exact Nat.le_of_not_lt hge
      · exact (hx y hyxs).trans (Nat.le_of_not_lt hge)

theorem pairwise_sortByCountDesc (cnt : String → Nat) (l : List String) :
    (sortByCountDesc cnt l).Pairwise (fun a b => cnt b ≤ cnt a) := by
  induction l with
  | nil => simp [sortByCountDesc]
  | cons x xs ih => exact pairwise_insertByCount cnt x _ ih

theorem most_common_length_le (l : List String) (n : Nat) :
    (most_common l n).length ≤ n := by
  unfold most_common
  exact List.length_take_le _ _

theorem mem_of_mem_most_common (l : List String) (n : Nat) (y : String)
    (hy : y ∈ most_common l n) : y ∈ l := by
  unfold most_common at hy
  have h1 : y ∈ sortByCountDesc (countIn l) (dedupFirst l) :=
    List.mem_of_mem_take hy
  rw [mem_sortByCountDesc, mem_dedupFirst] at h1
  exact h1

theorem most_common_sorted (l : List String) (n : Nat) :
    (most_common l n).Pairwise (fun a b => countIn l b ≤ countIn l a) :=
  List.Pairwise.sublist (List.take_sublist _ _)
    (pairwise_sortByCountDesc (countIn l) (dedupFirst l))

theorem mem_keywordSource_props (sw : List String)
    (tagged : Option (List (String × String))) (text : String) (w : String)
    (hw : w ∈ keywordSource sw tagged text) :
    sw.contains w = false ∧ 2 < w.data.length := by
  cases tagged with
  | some tt =>
    unfold keywordSource nounsOfTagged at hw
    rcases List.mem_map.mp hw with ⟨wp, hmem, rfl⟩
    have hp := (List.mem_filter.mp hmem).2
    simp only [Bool.and_eq_true, Bool.not_eq_true', decide_eq_true_eq] at hp
    exact ⟨hp.2, hp.1.2⟩
  | none =>
    unfold keywordSource fallbackWords at hw
    have h2 := List.mem_filter.mp hw
    have hcontains := h2.2
    simp only [Bool.not_eq_true'] at hcontains
    have h3 := h2.1
    unfold regexWords at h3
    rcases List.mem_map.mp h3 with ⟨run, hrun, rfl⟩
    have h4 := (List.mem_filter.mp hrun).2
    simp only [Bool.and_eq_true, decide_eq_true_eq] at h4
    refine ⟨hcontains, ?_⟩
    show 2 < run.length
    omega

/-- **C6.**  For every stopword set, tagger outcome (the part-of-speech path
when `pos_tag` succeeds, the regex fallback when it raises), input text and
requested count, the extractor returns at most `count` keywords, none of
which is a stopword or has length at most 2, and the sequence is ordered by
non-increasing frequency in the underlying token list; the embedding is a
total function, so neither path raises. -/
theorem extract_keywords_guarantees (sw : List String)
    (tagged : Option (List (String × String))) (text : String) (n : Nat) :
    (extract_keywords sw tagged text n).length ≤ n
    ∧ (∀ w ∈ extract_keywords sw tagged text n,
        sw.contains w = false ∧ 2 < w.data.length)
    ∧ (extract_keywords sw tagged text n).Pairwise
        (fun a b => countIn (keywordSource sw tagged text) b ≤
          countIn (keywordSource sw tagged text) a) := by
  refine ⟨most_common_length_le _ _, ?_, most_common_sorted _ _⟩
  intro w hw
  exact mem_keywordSource_props sw tagged text w
    (mem_of_mem_most_common _ _ _ hw)

/-- **C6, witness.**  The guarantees instantiated on the regex fallback path
with the stopword `"the"` over a concrete sentence. -/
theorem extract_keywords_guarantees_witness :
    (extract_keywords ["the"] none "the cat sat on the mat with cat" 3).length ≤ 3
    ∧ ∀ w ∈ extract_keywords ["the"] none "the cat sat on the mat with cat" 3,
        (["the"] : List String).contains w = false ∧ 2 < w.data.length := by
  have h := extract_keywords_guarantees ["the"] none
    "the cat sat on the mat with cat" 3
  exact ⟨h.1, h.2.1⟩

set_option maxRecDepth 20000 in
/-- **C7, counterexample.**  The reply `"{oops}"` admits no substring that
parses as a well-formed JSON object, yet the analyzer raises the wrapped
service error instead of degrading it into the whole-reply summary the claim
mandates. -/
theorem llm_malformed_reply_counterexample :
    has_parseable_obj "{oops}" = false
    ∧ llm_analyze_text (some "{oops}") = .error "OpenAI API error: invalid JSON"
    ∧ llm_analyze_text (some "{oops}") ≠ .ok (degraded_result "{oops}") := by
  refine ⟨by decide, by decide, by decide⟩

/-- **C7, amended.**  Graceful degradation happens exactly when the brace
regex finds no match: such a reply becomes the whole-reply summary with
`title = null`, `topics = ["general"]`, `sentiment = "neutral"`, and a
configured orchestration still records the primary path; but when a
brace-delimited substring exists and `json.loads` rejects it, the analyzer
raises the wrapped service error and the orchestration records the fallback
path instead. -/
theorem llm_degrade_amended (raw : String) :
    (json_match (pyStrip raw) = none →
      llm_analyze_text (some raw) = .ok (degraded_result (pyStrip raw))
      ∧ ∀ env : Env, ¬ unconfigured env.api_key → env.reply = some raw →
          chosen_method env = "openai")
    ∧ (∀ sub, json_match (pyStrip raw) = some sub → json_loads sub = none →
      llm_analyze_text (some raw) = .error "OpenAI API error: invalid JSON"
      ∧ ∀ env : Env, env.reply = some raw → chosen_method env = "mock") := by
  constructor
  · intro hnone
    have hok : llm_analyze_text (some raw) = .ok (degraded_result (pyStrip raw)) := by
      unfold llm_analyze_text
      dsimp only
      rw [hnone]
    refine ⟨hok, ?_⟩
    intro env hk hreply
    have hinit : llm_analyzer_init env.api_key = .ok () := by
      unfold llm_analyzer_init
      unfold unconfigured at hk
      rw [if_neg hk]
    unfold chosen_method primary_result
    rw [hinit, hreply, hok]
  · intro sub hsub hparse
    have herr : llm_analyze_text (some raw) = .error "OpenAI API error: invalid JSON" := by
      unfold llm_analyze_text
      dsimp only
      rw [hsub]
      dsimp only
      rw [hparse]
    refine ⟨herr, ?_⟩
    intro env hreply
    unfold chosen_method primary_result
    cases hinit : llm_analyzer_init env.api_key with
    | error e => rfl
    | ok u => rw [hreply, herr]

/-- **C7, amended, witness.**  Instantiated at the braceless reply
`"no json here"` received by a configured environment. -/
theorem llm_degrade_amended_witness :
    llm_analyze_text (some "no json here") = .ok (degraded_result "no json here")
    ∧ chosen_method env_braceless_reply = "openai" := by
  have h := (llm_degrade_amended "no json here").1 (by decide)
  exact ⟨h.1, h.2 env_braceless_reply (by decide) rfl⟩

/-- **C8.**  The fallback analyzer's sentiment is exactly the vote of the
fixed word lists under case-insensitive substring matching — positive when
more positive-list words occur than negative-list words, negative in the
mirrored case, neutral otherwise — and the scenario input
`"excellent breakthrough in medicine"` votes positive. -/
theorem mock_sentiment_spec :
    (∀ (choice : Nat) (text : String),
      (mock_analyze_text choice text).sentiment = some (claimed_sentiment text))
    ∧ mock_sentiment "excellent breakthrough in medicine" = "positive" := by
  constructor
  · intro c t
    show some (mock_sentiment t) = some (claimed_sentiment t)
    simp only [mock_sentiment, claimed_sentiment, List.countP_eq_length_filter]
  · decide

theorem mock_title_length_aux (s : String) :
    (if 50 < s.data.length then String.mk (s.data.take 47 ++ "...".data)
     else s).data.length ≤ 50 := by
  split
  · show (s.data.take 47 ++ "...".data).length ≤ 50
    rw [List.length_append, List.length_take,
      show ("...".data.length = 3) from rfl]
    omega
  · next h => exact Nat.le_of_not_lt h

/-- **C9.**  The fallback analyzer's title is exactly the first five
whitespace-separated words of the input, joined and title-cased, truncated
to 47 characters plus a three-character ellipsis marker — 50 characters
total — whenever the joined string exceeds 50 characters; consequently the
title never exceeds 50 characters. -/
theorem mock_title_spec :
    (∀ (choice : Nat) (text : String),
      (mock_analyze_text choice text).title = some (claimed_title text))
    ∧ ∀ text : String, (mock_title text).data.length ≤ 50 := by
  constructor
  · intro c t
    rfl
  · intro t
    exact mock_title_length_aux (pyTitle (String.intercalate " " ((pySplitWs t).take 5)))
